import Mathlib

/-!
Verification of `src/cubeb_log.cpp` (cubeb's real-time-safe logging facility)
against its natural-language specification.

The development shallowly embeds the file's data model and operations:

* C strings are modelled as `List Nat` — the sequence of bytes strictly before
  the NUL terminator (so a well-formed C string value contains no `0` byte, and
  `strlen` is `List.length`).  Raw memory buffers (such as the 256-byte
  `storage` array of `cubeb_log_message`) are also `List Nat`, of length 256,
  with no non-zero constraint; reading such a buffer as a C string is
  `List.takeWhile (· != 0)`.
* C++ object state is passed explicitly; the contents a buffer happens to hold
  before it is written (indeterminate in C++) appear as an explicit `pre`
  argument, so that paths which leave memory uninitialized are visible.
* Function pointers of type `cubeb_log_callback` are modelled by `CallbackPtr`:
  the null pointer, the address of `cubeb_noop_log_callback`, or a
  user-supplied callback distinguished by an identity.
* The dedicated drain thread and the platform `vsnprintf` are external to the
  embedding; their *effects on the modelled state* are kept (a joined thread
  becomes absent, `vsnprintf` truncates its rendering to the buffer size).
-/

/-- The maximum size of a log message, after having been formatted
(`CUBEB_LOG_MESSAGE_MAX_SIZE` in `cubeb_log.cpp`). -/
def CUBEB_LOG_MESSAGE_MAX_SIZE : Nat := 256

/-- The maximum number of log messages that can be queued before dropping
messages (`CUBEB_LOG_MESSAGE_QUEUE_DEPTH` in `cubeb_log.cpp`). -/
def CUBEB_LOG_MESSAGE_QUEUE_DEPTH : Nat := 40

/-- Modelled from the spec: the severity enumeration `cubeb_log_level` is
declared in `cubeb.h`, which is not among the sources of this tree; the spec
(section 6) describes it as an ordered enumeration with a distinguished
"disabled" value.  As in upstream `cubeb.h` the enumerators are
`CUBEB_LOG_DISABLED = 0`, `CUBEB_LOG_NORMAL = 1`, `CUBEB_LOG_VERBOSE = 2`. -/
inductive CubebLogLevel
  | disabled
  | normal
  | verbose
deriving DecidableEq, Repr

/-- The C integer value of each enumerator of `cubeb_log_level`.  This is what
a bare use of the constant in a C boolean context (as in
`!log_callback || CUBEB_LOG_DISABLED` in `cubeb_log_set`) tests against 0. -/
def CubebLogLevel.toNat : CubebLogLevel → Nat
  | .disabled => 0
  | .normal => 1
  | .verbose => 2

/-- A value of the C function-pointer type `cubeb_log_callback`: the null
pointer, the address of `cubeb_noop_log_callback`, or a user-supplied callback
function distinguished by an identity.  Distinct constructors model distinct
addresses. -/
inductive CallbackPtr
  | null
  | noop
  | user (id : Nat)
deriving DecidableEq, Repr

/-- The inline, null-terminated buffer wrapped by class `cubeb_log_message`:
`char storage[CUBEB_LOG_MESSAGE_MAX_SIZE]`, modelled as the list of its 256
bytes.  The class comment requires the buffer to be null-terminated. -/
structure cubeb_log_message where
  storage : List Nat
deriving DecidableEq, Repr

/-- Default constructor `cubeb_log_message()`: writes `'\0'` to `storage[0]`
and leaves the remaining bytes as they were (`pre` is the indeterminate
content the stack slot held before construction). -/
def cubeb_log_message.mkDefault (pre : List Nat) : cubeb_log_message :=
  ⟨pre.set 0 0⟩

/-- Converting constructor `cubeb_log_message(char const str[])`.
`str` is the C-string value pointed to (bytes before the terminator, so
`strlen(str) = str.length`); `pre` is the indeterminate content of `storage`
before construction.  The source computes `length = strlen(str)`, asserts
`length < CUBEB_LOG_MESSAGE_MAX_SIZE`, returns early (leaving `storage`
untouched) when `length > CUBEB_LOG_MESSAGE_MAX_SIZE - 1`, and otherwise
copies `length` bytes with `PodCopy` and writes `storage[length] = '\0'`. -/
def cubeb_log_message.mkFromStr (pre str : List Nat) : cubeb_log_message :=
  if CUBEB_LOG_MESSAGE_MAX_SIZE - 1 < str.length then
    ⟨pre⟩
  else
    ⟨str ++ 0 :: pre.drop (str.length + 1)⟩

/-- The condition of the constructor's debug assertion
`assert(length < CUBEB_LOG_MESSAGE_MAX_SIZE)` — `true` exactly when a debug
build survives construction from `str`. -/
def cubeb_log_message.ctorAssertOk (str : List Nat) : Bool :=
  decide (str.length < CUBEB_LOG_MESSAGE_MAX_SIZE)

/-- `cubeb_log_message::get()`: returns `storage` read as a C string, i.e. the
bytes strictly before the first NUL. -/
def cubeb_log_message.get (m : cubeb_log_message) : List Nat :=
  m.storage.takeWhile (· != 0)

/-- Modelled from the spec: the bounded lock-free queue `lock_free_queue` lives
in `cubeb_ringbuffer.h`, which is not among the sources of this tree.  The
spec (sections 2 and 6) describes it as an external collaborator with a fixed
capacity and the interface `enqueue(value) -> bool` (non-blocking, `false` on
full), best-effort `dequeue`, and `reset_thread_ids` (debug bookkeeping only,
no effect on contents).  The state is its capacity and the FIFO list of queued
messages. -/
structure lock_free_queue where
  capacity : Nat
  items : List cubeb_log_message
deriving DecidableEq, Repr

/-- Modelled from the spec: `enqueue` appends the value if the queue is not
full and reports success; on a full queue it leaves the queue unchanged and
reports failure (section 6: "non-blocking, false on full"). -/
def lock_free_queue.enqueue (q : lock_free_queue) (m : cubeb_log_message) :
    lock_free_queue × Bool :=
  if q.items.length < q.capacity then
    (⟨q.capacity, q.items ++ [m]⟩, true)
  else
    (q, false)

/-- The repeated `dequeue(&msg, 1)`-until-empty loop of
`cubeb_async_logger::purge_queue`, at the level of the queued list: each
iteration removes the front element; the loop ends when the queue is empty. -/
def drainItems : List cubeb_log_message → List cubeb_log_message
  | [] => []
  | _ :: rest => drainItems rest

/-- State of the singleton `cubeb_async_logger`: the owned queue
(`std::unique_ptr`, so `none` models the null/absent queue), the shutdown
flag, and whether the drain thread handle refers to a live thread
(`logging_thread.get_id() != std::thread::id()`). -/
structure cubeb_async_logger where
  msg_queue : Option lock_free_queue
  shutdown_thread : Bool
  logging_thread : Bool
deriving DecidableEq, Repr

/-- `cubeb_async_logger::push(str)`: constructs a `cubeb_log_message` from
`str` on the stack (with indeterminate prior contents `pre`) and enqueues it.
`msg_queue->enqueue(msg)` dereferences the owned queue pointer, so an absent
queue is a null dereference, modelled by `none`. -/
def cubeb_async_logger.push (s : cubeb_async_logger) (pre str : List Nat) :
    Option cubeb_async_logger :=
  let msg := cubeb_log_message.mkFromStr pre str
  match s.msg_queue with
  | none => none
  | some q => some { s with msg_queue := some (q.enqueue msg).1 }

/-- `cubeb_async_logger::start()`: allocates a fresh queue of depth
`CUBEB_LOG_MESSAGE_QUEUE_DEPTH`, clears the shutdown flag, and `run()` spawns
the drain thread (so the thread handle becomes live). -/
def cubeb_async_logger.start (_ : cubeb_async_logger) : cubeb_async_logger :=
  { msg_queue := some ⟨CUBEB_LOG_MESSAGE_QUEUE_DEPTH, []⟩,
    shutdown_thread := false,
    logging_thread := true }

/-- `cubeb_async_logger::purge_queue()`: asserts the drain thread is stopped,
returns immediately if `msg_queue` is null, and otherwise dequeues and
discards entries until the queue is empty. -/
def cubeb_async_logger.purge_queue (s : cubeb_async_logger) : cubeb_async_logger :=
  match s.msg_queue with
  | none => s
  | some q => { s with msg_queue := some ⟨q.capacity, drainItems q.items⟩ }

/-- `cubeb_async_logger::stop()`: sets the shutdown flag; then, if the drain
thread handle is live, joins it (after which the handle is reset to the empty
`std::thread()`), calls `msg_queue->reset_thread_ids()` (debug bookkeeping,
no effect on the modelled contents), purges the queue, and releases the queue
pointer.  The messages the drain thread may still forward while being joined
are emissions outside the state; the queue is released regardless. -/
def cubeb_async_logger.stop (s : cubeb_async_logger) : cubeb_async_logger :=
  let s1 : cubeb_async_logger := { s with shutdown_thread := true }
  if s1.logging_thread then
    let s2 : cubeb_async_logger := { s1 with logging_thread := false }
    let s3 := s2.purge_queue
    { s3 with msg_queue := none }
  else
    s1

/-- The two process-wide atomics of `cubeb_log.cpp`:
`std::atomic<cubeb_log_level> g_cubeb_log_level` and
`std::atomic<cubeb_log_callback> g_cubeb_log_callback`.  Both are global
objects, zero-initialized at process start (level `disabled`, callback
`null`). -/
structure cubeb_global_state where
  g_cubeb_log_level : CubebLogLevel
  g_cubeb_log_callback : CallbackPtr
deriving DecidableEq, Repr

/-- `cubeb_log_get_level()`: returns `g_cubeb_log_level`. -/
def cubeb_log_get_level (g : cubeb_global_state) : CubebLogLevel :=
  g.g_cubeb_log_level

/-- `cubeb_log_get_callback()`: returns `nullptr` when `g_cubeb_log_callback`
equals `cubeb_noop_log_callback`, and otherwise the stored pointer. -/
def cubeb_log_get_callback (g : cubeb_global_state) : CallbackPtr :=
  if g.g_cubeb_log_callback = CallbackPtr.noop then
    CallbackPtr.null
  else
    g.g_cubeb_log_callback

/-- The truncation performed by the platform `vsnprintf` into the
`char msg[CUBEB_LOG_MESSAGE_MAX_SIZE]` stack buffer of the two formatting
entry points.  Formatting itself is external (spec section 4.3: platform
`vsnprintf`-equivalent semantics); `rendered` stands for the full expansion of
`fmt` with its arguments, of which at most `CUBEB_LOG_MESSAGE_MAX_SIZE - 1`
characters are written, followed by the terminator. -/
def vsnprintf_model (rendered : List Nat) : List Nat :=
  rendered.take (CUBEB_LOG_MESSAGE_MAX_SIZE - 1)

/-- The call `g_cubeb_log_callback.load()("%s:%d:%s", file, line, msg)` made by
`cubeb_log_internal`: which callback pointer is invoked, and with which
decoration arguments. -/
structure CallbackCall where
  callback : CallbackPtr
  file : List Nat
  line : Nat
  msg : List Nat
deriving DecidableEq, Repr

/-- `cubeb_log_internal(file, line, fmt, ...)`: formats into a fixed-size
stack buffer via `vsnprintf` and unconditionally invokes the loaded
`g_cubeb_log_callback` with the `"%s:%d:%s"` decoration.  It reads no other
global — in particular not `g_cubeb_log_level`. -/
def cubeb_log_internal (g : cubeb_global_state) (file : List Nat) (line : Nat)
    (rendered : List Nat) : CallbackCall :=
  { callback := g.g_cubeb_log_callback,
    file := file,
    line := line,
    msg := vsnprintf_model rendered }

/-- `cubeb_async_log(fmt, ...)`: formats into a fixed-size stack buffer via
`vsnprintf` and pushes the result to the singleton async logger.  It reads
neither of the two globals; `g` is the ambient global state, passed to make
that observable, and `pre` is the indeterminate prior content of the
`cubeb_log_message` constructed inside `push`. -/
def cubeb_async_log (_g : cubeb_global_state) (s : cubeb_async_logger)
    (pre rendered : List Nat) : Option cubeb_async_logger :=
  s.push pre (vsnprintf_model rendered)

/-- One state update performed by `cubeb_log_set`, in source order. -/
inductive SetEvent
  | storeLevel (lvl : CubebLogLevel)
  | storeCallback (cb : CallbackPtr)
  | loggerStart
  | loggerStop
  | loggerPurge
  | assertFail
deriving DecidableEq, Repr

/-- The sequence of state updates performed by
`cubeb_log_set(log_level, log_callback)`, transcribed from the source:
store the level; then, if `log_callback && log_level != CUBEB_LOG_DISABLED`,
store the callback and start the async logger; else if
`!log_callback || CUBEB_LOG_DISABLED` (the bare constant is the C truth value
of its integer, i.e. `CubebLogLevel.disabled.toNat ≠ 0`), stop the async
logger, store the no-op callback and purge the queue; else
`assert(false && "Incorrect parameters passed to cubeb_log_set")`. -/
def cubeb_log_set_events (lvl : CubebLogLevel) (cb : CallbackPtr) : List SetEvent :=
  SetEvent.storeLevel lvl ::
    (if cb ≠ CallbackPtr.null ∧ lvl ≠ CubebLogLevel.disabled then
      [SetEvent.storeCallback cb, SetEvent.loggerStart]
    else if cb = CallbackPtr.null ∨ CubebLogLevel.disabled.toNat ≠ 0 then
      [SetEvent.loggerStop, SetEvent.storeCallback CallbackPtr.noop,
        SetEvent.loggerPurge]
    else
      [SetEvent.assertFail])

/-- Joint state acted on by `cubeb_log_set`: the two globals, the async
logger singleton, and whether the defensive `assert(false)` has fired. -/
structure SetState where
  globals : cubeb_global_state
  logger : cubeb_async_logger
  assertFailed : Bool
deriving DecidableEq, Repr

/-- The effect of one `cubeb_log_set` update on the joint state. -/
def applySetEvent (s : SetState) : SetEvent → SetState
  | .storeLevel lvl =>
      { s with globals := { s.globals with g_cubeb_log_level := lvl } }
  | .storeCallback cb =>
      { s with globals := { s.globals with g_cubeb_log_callback := cb } }
  | .loggerStart => { s with logger := s.logger.start }
  | .loggerStop => { s with logger := s.logger.stop }
  | .loggerPurge => { s with logger := s.logger.purge_queue }
  | .assertFail => { s with assertFailed := true }

/-- `cubeb_log_set(log_level, log_callback)` as a transformer of the joint
state: its updates, applied in source order. -/
def cubeb_log_set (s : SetState) (lvl : CubebLogLevel) (cb : CallbackPtr) :
    SetState :=
  (cubeb_log_set_events lvl cb).foldl applySetEvent s

/-- Position of the first occurrence of an event in an update sequence
(`List.findIdx`; the list length when absent). -/
def eventPos (l : List SetEvent) (e : SetEvent) : Nat :=
  l.findIdx (· = e)

/-- Reading back a buffer that holds `str`, a terminating NUL, and then
arbitrary residue yields exactly `str`, provided `str` itself has no NUL. -/
theorem takeWhile_append_zero (str rest : List Nat) (h : ∀ b ∈ str, b ≠ 0) :
    (str ++ 0 :: rest).takeWhile (· != 0) = str := by
  induction str with
  | nil => simp [List.takeWhile]
  | cons a l ih =>
    have ha : (a != 0) = true := by
      simpa using h a (by simp)
    rw [List.cons_append]
    simp only [List.takeWhile, ha]
    rw [ih fun b hb => h b (by simp [hb])]

/-- C4: for every C-string value `str` with `strlen(str)` strictly below
`CUBEB_LOG_MESSAGE_MAX_SIZE` (the empty string included), constructing a
`cubeb_log_message` from it and reading it back with `get()` is the identity,
whatever indeterminate bytes the storage held beforehand. -/
theorem message_roundtrip (pre str : List Nat)
    (hlen : str.length < CUBEB_LOG_MESSAGE_MAX_SIZE)
    (hstr : ∀ b ∈ str, b ≠ 0) :
    (cubeb_log_message.mkFromStr pre str).get = str := by
  unfold cubeb_log_message.mkFromStr
  rw [if_neg (by omega)]
  exact takeWhile_append_zero str (pre.drop (str.length + 1)) hstr

/-- C4 witness: a concrete two-byte message round-trips through construction
and `get()` even over fully garbage-filled prior storage. -/
theorem message_roundtrip_witness :
    (cubeb_log_message.mkFromStr (List.replicate 256 7) [104, 105]).get = [104, 105] :=
  message_roundtrip (List.replicate 256 7) [104, 105] (by decide) (by decide)

set_option maxRecDepth 8000 in
/-- C3: evaluating the constructor at an oversize input (256 bytes of `66`)
over indeterminate prior storage (256 bytes of `65`).  The early-return path
leaves `storage` untouched, so `get()` returns the indeterminate prior
contents — not the empty string the spec promises — and the debug assertion
`assert(length < CUBEB_LOG_MESSAGE_MAX_SIZE)` fails. -/
theorem message_oversize_eval :
    (cubeb_log_message.mkFromStr (List.replicate 256 65) (List.replicate 256 66)).get =
      List.replicate 256 65 ∧
    (cubeb_log_message.mkFromStr (List.replicate 256 65) (List.replicate 256 66)).get ≠
      [] ∧
    cubeb_log_message.ctorAssertOk (List.replicate 256 66) = false := by
  refine ⟨by decide, by decide, by decide⟩

/-- C8: calling `cubeb_async_logger::stop()` with the drain thread absent
leaves the queue ownership and the thread handle exactly as they were, and
`stop` composed with itself equals a single `stop` on every state. -/
theorem stop_idempotent :
    (∀ s : cubeb_async_logger, s.logging_thread = false →
        s.stop.msg_queue = s.msg_queue ∧ s.stop.logging_thread = s.logging_thread) ∧
    (∀ s : cubeb_async_logger, s.stop.stop = s.stop) := by
  constructor
  · intro s h
    simp [cubeb_async_logger.stop, h]
  · intro s
    obtain ⟨q, sd, th⟩ := s
    cases th <;> cases q <;>
      simp [cubeb_async_logger.stop, cubeb_async_logger.purge_queue]

/-- C8 witness: a stopped logger (thread absent) still owning an empty queue
keeps that queue across `stop()`. -/
theorem stop_idempotent_witness :
    (cubeb_async_logger.stop ⟨some ⟨40, []⟩, false, false⟩).msg_queue = some ⟨40, []⟩ :=
  (stop_idempotent.1 ⟨some ⟨40, []⟩, false, false⟩ rfl).1

/-- C10: `cubeb_async_logger::purge_queue()` called while the logger holds no
queue returns immediately with no effect: the null check precedes any queue
access. -/
theorem purge_queue_absent_noop (s : cubeb_async_logger)
    (h : s.msg_queue = none) : s.purge_queue = s := by
  obtain ⟨q, sd, th⟩ := s
  cases h
  rfl

/-- C10 witness: purging the logger state the disable path of `cubeb_log_set`
reaches after `stop()` (queue released, thread joined) changes nothing. -/
theorem purge_queue_absent_noop_witness :
    cubeb_async_logger.purge_queue ⟨none, true, false⟩ = ⟨none, true, false⟩ :=
  purge_queue_absent_noop ⟨none, true, false⟩ rfl

/-- C6 counterexample: in the zero-initialized start-up state the stored
callback is the null pointer, not the no-op sentinel, yet
`cubeb_log_get_callback` still returns the absent value — so "absent exactly
when the stored callback equals the no-op sentinel" fails. -/
theorem get_callback_absent_iff_noop_fails :
    ¬ (cubeb_log_get_callback ⟨CubebLogLevel.disabled, CallbackPtr.null⟩ =
          CallbackPtr.null ↔
        (⟨CubebLogLevel.disabled, CallbackPtr.null⟩ : cubeb_global_state).g_cubeb_log_callback =
          CallbackPtr.noop) := by
  decide

/-- C6 (amended): `cubeb_log_get_callback` returns the absent value exactly
when the stored callback is the no-op sentinel or is itself the null pointer
(the zero-initialized start-up value); otherwise it returns the stored
callback unchanged; and it never exposes the no-op sentinel. -/
theorem get_callback_characterization (g : cubeb_global_state) :
    (cubeb_log_get_callback g = CallbackPtr.null ↔
        g.g_cubeb_log_callback = CallbackPtr.noop ∨
          g.g_cubeb_log_callback = CallbackPtr.null) ∧
    cubeb_log_get_callback g ≠ CallbackPtr.noop ∧
    (g.g_cubeb_log_callback ≠ CallbackPtr.noop →
        cubeb_log_get_callback g = g.g_cubeb_log_callback) := by
  obtain ⟨lvl, cb⟩ := g
  cases cb <;> simp [cubeb_log_get_callback]

/-- C6 witness: a configured user callback is returned unchanged. -/
theorem get_callback_characterization_witness :
    cubeb_log_get_callback ⟨CubebLogLevel.normal, CallbackPtr.user 3⟩ =
      CallbackPtr.user 3 :=
  (get_callback_characterization ⟨CubebLogLevel.normal, CallbackPtr.user 3⟩).2.2
    (by decide)

/-- C7: the two formatting entry points never consult the configured severity
level: `cubeb_log_internal` yields the same callback invocation whatever the
level, always invoking the stored callback on the `vsnprintf`-truncated
rendering; `cubeb_async_log` reads neither global at all and always forwards
the truncated rendering to the async logger's `push`. -/
theorem entry_points_ignore_level :
    (∀ lvl lvl' cb file line rendered,
        cubeb_log_internal ⟨lvl, cb⟩ file line rendered =
          cubeb_log_internal ⟨lvl', cb⟩ file line rendered) ∧
    (∀ g file line rendered,
        (cubeb_log_internal g file line rendered).callback = g.g_cubeb_log_callback ∧
        (cubeb_log_internal g file line rendered).msg = vsnprintf_model rendered) ∧
    (∀ g g' s pre rendered,
        cubeb_async_log g s pre rendered = cubeb_async_log g' s pre rendered) ∧
    (∀ g s pre rendered,
        cubeb_async_log g s pre rendered =
          cubeb_async_logger.push s pre (vsnprintf_model rendered)) :=
  ⟨fun _ _ _ _ _ _ => rfl, fun _ _ _ _ => ⟨rfl, rfl⟩, fun _ _ _ _ _ => rfl,
    fun _ _ _ _ => rfl⟩

/-- C2 counterexample: the defensive `else` branch of `cubeb_log_set` is
reached at level = disabled with a non-null callback: the two preceding
conditions are not logical complements, because the second one tests the bare
constant `CUBEB_LOG_DISABLED` (integer value 0, hence false) instead of
comparing the level against it. -/
theorem set_else_branch_reached :
    SetEvent.assertFail ∈
      cubeb_log_set_events CubebLogLevel.disabled (CallbackPtr.user 0) := by
  decide

/-- C2 (amended): the defensive `else` branch of `cubeb_log_set` is reached
exactly when the callback is non-null and the level is disabled; for every
other argument pair one of the two preceding conditions holds. -/
theorem set_else_branch_reached_iff (lvl : CubebLogLevel) (cb : CallbackPtr) :
    SetEvent.assertFail ∈ cubeb_log_set_events lvl cb ↔
      cb ≠ CallbackPtr.null ∧ lvl = CubebLogLevel.disabled := by
  cases lvl <;> cases cb <;>
    simp [cubeb_log_set_events, CubebLogLevel.toNat]

/-- C5 counterexample: in the enable path of `cubeb_log_set` the publication
of the callback pointer does not come after `start()`: at level `normal` with
a non-null callback, `loggerStart` does not precede `storeCallback` in the
update sequence. -/
theorem set_start_before_publish_fails :
    ¬ (eventPos (cubeb_log_set_events CubebLogLevel.normal (CallbackPtr.user 0))
          SetEvent.loggerStart <
        eventPos (cubeb_log_set_events CubebLogLevel.normal (CallbackPtr.user 0))
          (SetEvent.storeCallback (CallbackPtr.user 0))) := by
  decide

/-- C5 (amended): in the enable path (non-null callback, level not disabled)
`cubeb_log_set` performs exactly three updates, in this order: it publishes
the level, then publishes the callback pointer, and only then calls
`start()` — publication of the callback precedes the start of the async
logger. -/
theorem set_enable_update_order (lvl : CubebLogLevel) (cb : CallbackPtr)
    (hcb : cb ≠ CallbackPtr.null) (hlvl : lvl ≠ CubebLogLevel.disabled) :
    cubeb_log_set_events lvl cb =
      [SetEvent.storeLevel lvl, SetEvent.storeCallback cb, SetEvent.loggerStart] := by
  unfold cubeb_log_set_events
  rw [if_pos ⟨hcb, hlvl⟩]

/-- C5 witness: the concrete enable call `cubeb_log_set(NORMAL, user0)`
publishes the callback before starting the logger. -/
theorem set_enable_update_order_witness :
    cubeb_log_set_events CubebLogLevel.normal (CallbackPtr.user 0) =
      [SetEvent.storeLevel CubebLogLevel.normal,
        SetEvent.storeCallback (CallbackPtr.user 0), SetEvent.loggerStart] :=
  set_enable_update_order CubebLogLevel.normal (CallbackPtr.user 0)
    (by decide) (by decide)

/-- C1: evaluating `cubeb_log_set` at level disabled with a non-null callback,
from a state where a user callback is configured and the async logger is
running.  The call falls through to the defensive `assert(false)` branch: the
level is stored, but the async facility is not stopped and the no-op callback
is not published, so a subsequent `cubeb_log_get_callback()` still returns the
previously configured callback instead of the absent value (while
`cubeb_log_get_level()` does read disabled). -/
theorem set_disabled_nonnull_callback_eval :
    cubeb_log_set
        ⟨⟨CubebLogLevel.normal, CallbackPtr.user 0⟩,
          ⟨some ⟨CUBEB_LOG_MESSAGE_QUEUE_DEPTH, []⟩, false, true⟩, false⟩
        CubebLogLevel.disabled (CallbackPtr.user 1) =
      ⟨⟨CubebLogLevel.disabled, CallbackPtr.user 0⟩,
        ⟨some ⟨CUBEB_LOG_MESSAGE_QUEUE_DEPTH, []⟩, false, true⟩, true⟩ ∧
    cubeb_log_get_callback ⟨CubebLogLevel.disabled, CallbackPtr.user 0⟩ =
      CallbackPtr.user 0 ∧
    cubeb_log_get_level ⟨CubebLogLevel.disabled, CallbackPtr.user 0⟩ =
      CubebLogLevel.disabled := by
  refine ⟨by decide, by decide, by decide⟩

/-- Supporting fact: the disable route callers actually use — a null
callback, any level — does behave as the spec describes: the drain thread
ends up absent, the no-op callback is published (so `get_callback` reports
absent), and the level is stored. -/
theorem set_null_callback_disables (st : SetState) (lvl : CubebLogLevel) :
    cubeb_log_get_callback (cubeb_log_set st lvl CallbackPtr.null).globals =
      CallbackPtr.null ∧
    (cubeb_log_set st lvl CallbackPtr.null).logger.logging_thread = false ∧
    cubeb_log_get_level (cubeb_log_set st lvl CallbackPtr.null).globals = lvl := by
  obtain ⟨⟨glvl, gcb⟩, ⟨q, sd, th⟩, af⟩ := st
  cases th <;> cases q <;>
    simp [cubeb_log_set, cubeb_log_set_events, applySetEvent,
      cubeb_async_logger.stop, cubeb_async_logger.purge_queue,
      cubeb_log_get_callback, cubeb_log_get_level, CubebLogLevel.toNat]

/-- Supporting fact: enqueueing into a full queue leaves the queue unchanged
and reports failure — the silent-drop discipline of the modelled queue
interface. -/
theorem enqueue_full_drops (q : lock_free_queue) (m : cubeb_log_message)
    (h : q.capacity ≤ q.items.length) : q.enqueue m = (q, false) := by
  unfold lock_free_queue.enqueue
  rw [if_neg (by omega)]
